import Mathlib

/-
Verification of the HVAC energy model in Aida2.py.

Real numbers of the program are modelled as rationals (exact arithmetic).
A Python function that can raise is modelled as returning an Option:
none stands for an exception escaping the call.
-/

namespace HVAC

/-- The building_params dictionary read by calculate_energy_consumption
(lines 400-405 of Aida2.py). -/
structure BuildingParameters where
  heat_capacity : ℚ
  heat_loss_coefficient : ℚ
  cop_heating : ℚ
  cop_cooling : ℚ
  time_step : ℚ
deriving Repr, DecidableEq

/-- One iteration of the loop body of calculate_energy_consumption
(lines 412-430): given the indoor temperature left by the previous step,
the setpoint of this step and the outdoor temperature of the previous step,
the energy charged for this step. -/
def simStep (bp : BuildingParameters) (indoorPrev spCur outPrev : ℚ) : ℚ :=
  let temp_change_natural :=
    (outPrev - indoorPrev) * bp.heat_loss_coefficient / bp.heat_capacity * bp.time_step
  let indoor_temp_natural := indoorPrev + temp_change_natural
  let temp_change_required := spCur - indoor_temp_natural
  if temp_change_required > 0 then
    bp.heat_capacity * temp_change_required / bp.cop_heating
  else
    bp.heat_capacity * |temp_change_required| / bp.cop_cooling

/-- The loop of calculate_energy_consumption from index 1 on: the first list
argument is setpoints[1:], the second outdoor_temps[0:].  Each step reads
outdoor_temps[i-1]; running past the end of outdoor_temps is the IndexError
the Python loop would raise, hence none. -/
def calcSteps (bp : BuildingParameters) : ℚ → List ℚ → List ℚ → Option (List ℚ)
  | _, [], _ => some []
  | indoorPrev, spCur :: spRest, outPrev :: outRest =>
    (calcSteps bp spCur spRest outRest).map
      (fun es => simStep bp indoorPrev spCur outPrev :: es)
  | _, _ :: _, [] => none

/-- calculate_energy_consumption (lines 388-432 of Aida2.py).
energy is initialised to zeros and indoor_temp to setpoints[0];
reading setpoints[0] of an empty array raises IndexError, hence none. -/
def calculate_energy_consumption (setpoints outdoor_temps : List ℚ)
    (building_params : BuildingParameters) : Option (List ℚ) :=
  match setpoints with
  | [] => none
  | s0 :: rest =>
    (calcSteps building_params s0 rest outdoor_temps).map (fun es => 0 :: es)

/-- The loop succeeds exactly when outdoor_temps is long enough, and then the
i-th energy of the loop output is simStep applied to the adjacent inputs. -/
lemma calcSteps_spec (bp : BuildingParameters) (rest : List ℚ) :
    ∀ (out : List ℚ) (s0 : ℚ), rest.length ≤ out.length →
      ∃ es, calcSteps bp s0 rest out = some es ∧ es.length = rest.length ∧
        ∀ i < rest.length,
          es.getD i 0 =
            simStep bp ((s0 :: rest).getD i 0) (rest.getD i 0) (out.getD i 0) := by
  induction rest with
  | nil =>
    intro out s0 _
    exact ⟨[], rfl, rfl, fun i hi => absurd hi (by simp)⟩
  | cons r rs ih =>
    intro out s0 h
    cases out with
    | nil => simp at h
    | cons o os =>
      obtain ⟨es', heq, hlen, helem⟩ := ih os r (by simpa using h)
      refine ⟨simStep bp s0 r o :: es', by simp [calcSteps, heq], by simp [hlen], ?_⟩
      intro i hi
      cases i with
      | zero => simp
      | succ j =>
        have hj : j < rs.length := by simpa using hi
        simpa using helem j hj

/-- The loop raises IndexError (returns none) when outdoor_temps is too short. -/
lemma calcSteps_none (bp : BuildingParameters) (rest : List ℚ) :
    ∀ (out : List ℚ) (s0 : ℚ), out.length < rest.length →
      calcSteps bp s0 rest out = none := by
  induction rest with
  | nil => intro out s0 h; simp at h
  | cons r rs ih =>
    intro out s0 h
    cases out with
    | nil => rfl
    | cons o os => simp [calcSteps, ih os r (by simpa using h)]

/-- C1: for equal-length inputs of length at least 1 and positive building
parameters, the simulator returns an energy sequence with energy[0] = 0 and,
for 1 <= i < n, energy[i] given by the stated recurrence, in which the
indoor temperature entering step i is setpoints[i-1]. -/
theorem C1_simulator_recurrence (setpoints outdoor_temps : List ℚ)
    (bp : BuildingParameters)
    (hlen : setpoints.length = outdoor_temps.length) (hn : 1 ≤ setpoints.length)
    (_hpos : 0 < bp.heat_capacity ∧ 0 < bp.heat_loss_coefficient ∧
      0 < bp.cop_heating ∧ 0 < bp.cop_cooling ∧ 0 < bp.time_step) :
    ∃ energy,
      calculate_energy_consumption setpoints outdoor_temps bp = some energy ∧
      energy.length = setpoints.length ∧
      energy.getD 0 0 = 0 ∧
      ∀ i, 1 ≤ i → i < setpoints.length →
        energy.getD i 0 =
          (let indoorPrev := setpoints.getD (i - 1) 0
           let drift := (outdoor_temps.getD (i - 1) 0 - indoorPrev) *
             bp.heat_loss_coefficient / bp.heat_capacity * bp.time_step
           let indoor_natural := indoorPrev + drift
           let delta := setpoints.getD i 0 - indoor_natural
           if delta > 0 then bp.heat_capacity * delta / bp.cop_heating
           else bp.heat_capacity * |delta| / bp.cop_cooling) := by
  cases setpoints with
  | nil => simp at hn
  | cons s0 rest =>
    have hout : rest.length ≤ outdoor_temps.length := by
      simp at hlen; omega
    obtain ⟨es, heq, hlen', helem⟩ := calcSteps_spec bp rest outdoor_temps s0 hout
    refine ⟨0 :: es, ?_, by simp [hlen'], by simp, ?_⟩
    · simp [calculate_energy_consumption, heq]
    · intro i hi1 hi2
      obtain ⟨j, rfl⟩ : ∃ j, i = j + 1 := ⟨i - 1, (Nat.sub_add_cancel hi1).symm⟩
      have hj : j < rest.length := by simpa using hi2
      have := helem j hj
      simp only [List.getD_cons_succ, Nat.add_sub_cancel]
      rw [this]
      simp [simStep]

/-- Witness for C1 at the concrete scenario of the spec. -/
theorem C1_simulator_recurrence_witness :
    ∃ energy,
      calculate_energy_consumption [21, 21] [10, 10] ⟨10, 2, 3, 4, 1⟩ =
        some energy ∧ energy.length = 2 := by
  obtain ⟨es, h1, h2, -, -⟩ :=
    C1_simulator_recurrence [21, 21] [10, 10] ⟨10, 2, 3, 4, 1⟩ rfl
      (by norm_num)
      ⟨by norm_num, by norm_num, by norm_num, by norm_num, by norm_num⟩
  exact ⟨es, h1, by simpa using h2⟩

/-- C2: on the concrete scenario heat_capacity 10, heat_loss_coefficient 2,
cop_heating 3, cop_cooling 4, time_step 1, setpoints [21, 21],
outdoor_temps [10, 10], the simulator returns energy [0, 22/3]. -/
theorem C2_concrete_scenario :
    calculate_energy_consumption [21, 21] [10, 10] ⟨10, 2, 3, 4, 1⟩ =
      some [0, 22/3] := by
  norm_num [calculate_energy_consumption, calcSteps, simStep]

/-- Memoryless per-step closed form of claim C9: the energy of step i as a
function of only setpoints[i-1], setpoints[i], outdoor_temps[i-1] and the
building parameters (stated from the claim, to be compared with the loop). -/
def step_energy_closed (bp : BuildingParameters) (spPrev spCur outPrev : ℚ) : ℚ :=
  let drift := (outPrev - spPrev) * bp.heat_loss_coefficient /
    bp.heat_capacity * bp.time_step
  let indoor_natural := spPrev + drift
  let delta := spCur - indoor_natural
  if delta > 0 then bp.heat_capacity * delta / bp.cop_heating
  else bp.heat_capacity * |delta| / bp.cop_cooling

/-- Vectorized stateless computation over adjacent elements, from claim C9:
a zero followed by the closed form zipped over (setpoints, setpoints shifted
by one, outdoor_temps). -/
def energy_vectorized (bp : BuildingParameters) (sp out : List ℚ) : List ℚ :=
  match sp with
  | [] => []
  | _ :: tail => 0 :: List.zipWith3 (step_energy_closed bp) sp tail out

lemma calcSteps_eq_zipWith3 (bp : BuildingParameters) (rest : List ℚ) :
    ∀ (out : List ℚ) (s0 : ℚ), rest.length ≤ out.length →
      calcSteps bp s0 rest out =
        some (List.zipWith3 (step_energy_closed bp) (s0 :: rest) rest out) := by
  induction rest with
  | nil => intro out s0 _; cases out <;> rfl
  | cons r rs ih =>
    intro out s0 h
    cases out with
    | nil => simp at h
    | cons o os =>
      simp only [calcSteps, ih os r (by simpa using h), Option.map_some]
      rfl

/-- C9: the sequential simulation loop agrees with the memoryless vectorized
computation: indoor_temp[i-1] always equals setpoints[i-1], so each energy
value only depends on adjacent elements of the inputs. -/
theorem C9_loop_equals_vectorized (setpoints outdoor_temps : List ℚ)
    (bp : BuildingParameters)
    (hlen : setpoints.length = outdoor_temps.length) (hn : 1 ≤ setpoints.length) :
    calculate_energy_consumption setpoints outdoor_temps bp =
      some (energy_vectorized bp setpoints outdoor_temps) := by
  cases setpoints with
  | nil => simp at hn
  | cons s0 rest =>
    have hout : rest.length ≤ outdoor_temps.length := by
      simp at hlen; omega
    simp [calculate_energy_consumption, calcSteps_eq_zipWith3 bp rest outdoor_temps s0 hout,
      energy_vectorized]

/-- Witness for C9 at the concrete scenario of the spec. -/
theorem C9_loop_equals_vectorized_witness :
    calculate_energy_consumption [21, 21] [10, 10] ⟨10, 2, 3, 4, 1⟩ =
      some (energy_vectorized ⟨10, 2, 3, 4, 1⟩ [21, 21] [10, 10]) :=
  C9_loop_equals_vectorized [21, 21] [10, 10] ⟨10, 2, 3, 4, 1⟩ rfl (by norm_num)

/-- C7: for valid inputs the output has exactly the length of the setpoint
sequence, and a length-1 input returns the single-element sequence [0]. -/
theorem C7_length_invariant (setpoints outdoor_temps : List ℚ)
    (bp : BuildingParameters)
    (hlen : setpoints.length = outdoor_temps.length) (hn : 1 ≤ setpoints.length)
    (_hpos : 0 < bp.heat_capacity ∧ 0 < bp.heat_loss_coefficient ∧
      0 < bp.cop_heating ∧ 0 < bp.cop_cooling ∧ 0 < bp.time_step) :
    ∃ energy,
      calculate_energy_consumption setpoints outdoor_temps bp = some energy ∧
      energy.length = setpoints.length ∧
      (setpoints.length = 1 → energy = [0]) := by
  cases setpoints with
  | nil => simp at hn
  | cons s0 rest =>
    have hout : rest.length ≤ outdoor_temps.length := by
      simp at hlen; omega
    obtain ⟨es, heq, hlen', -⟩ := calcSteps_spec bp rest outdoor_temps s0 hout
    refine ⟨0 :: es, by simp [calculate_energy_consumption, heq], by simp [hlen'], ?_⟩
    intro h1
    have : rest.length = 0 := by simpa using h1
    have : es = [] := List.length_eq_zero.mp (hlen'.trans this)
    simp [this]

/-- Witness for C7 on a length-1 input. -/
theorem C7_length_invariant_witness :
    ∃ energy,
      calculate_energy_consumption [21] [10] ⟨10, 2, 3, 4, 1⟩ = some energy ∧
      energy.length = 1 ∧ energy = [0] := by
  obtain ⟨es, h1, h2, h3⟩ :=
    C7_length_invariant [21] [10] ⟨10, 2, 3, 4, 1⟩ rfl (by norm_num)
      ⟨by norm_num, by norm_num, by norm_num, by norm_num, by norm_num⟩
  exact ⟨es, h1, by simpa using h2, h3 (by simp)⟩

lemma simStep_nonneg (bp : BuildingParameters) (hc : 0 < bp.heat_capacity)
    (hh : 0 < bp.cop_heating) (hcc : 0 < bp.cop_cooling)
    (indoorPrev spCur outPrev : ℚ) :
    0 ≤ simStep bp indoorPrev spCur outPrev := by
  simp only [simStep]
  split_ifs with h
  · exact div_nonneg (mul_nonneg hc.le h.le) hh.le
  · exact div_nonneg (mul_nonneg hc.le (abs_nonneg _)) hcc.le

lemma calcSteps_mem_nonneg (bp : BuildingParameters) (hc : 0 < bp.heat_capacity)
    (hh : 0 < bp.cop_heating) (hcc : 0 < bp.cop_cooling) (rest : List ℚ) :
    ∀ (out : List ℚ) (s0 : ℚ) (es : List ℚ),
      calcSteps bp s0 rest out = some es → ∀ e ∈ es, 0 ≤ e := by
  induction rest with
  | nil =>
    intro out s0 es heq e he
    have hes : es = [] := by cases out <;> exact (Option.some.inj heq).symm
    subst hes
    simp at he
  | cons r rs ih =>
    intro out s0 es heq e he
    cases out with
    | nil => simp [calcSteps] at heq
    | cons o os =>
      simp only [calcSteps, Option.map_eq_some'] at heq
      obtain ⟨es', heq', rfl⟩ := heq
      rcases List.mem_cons.mp he with rfl | hmem
      · exact simStep_nonneg bp hc hh hcc s0 r o
      · exact ih os r es' heq' e hmem

/-- C10: with positive heat_capacity, cop_heating and cop_cooling, every
element of any energy sequence the simulator returns is non-negative. -/
theorem C10_energy_nonneg (setpoints outdoor_temps : List ℚ)
    (bp : BuildingParameters) (hc : 0 < bp.heat_capacity)
    (hh : 0 < bp.cop_heating) (hcc : 0 < bp.cop_cooling) :
    ∀ energy,
      calculate_energy_consumption setpoints outdoor_temps bp = some energy →
      ∀ e ∈ energy, 0 ≤ e := by
  intro energy heq e he
  cases setpoints with
  | nil => simp [calculate_energy_consumption] at heq
  | cons s0 rest =>
    simp only [calculate_energy_consumption, Option.map_eq_some'] at heq
    obtain ⟨es, heq', rfl⟩ := heq
    rcases List.mem_cons.mp he with rfl | hmem
    · exact le_refl 0
    · exact calcSteps_mem_nonneg bp hc hh hcc rest outdoor_temps s0 es heq' e hmem

/-- Witness for C10 at the concrete scenario of the spec: both returned
energy values are non-negative. -/
theorem C10_energy_nonneg_witness :
    calculate_energy_consumption [21, 21] [10, 10] ⟨10, 2, 3, 4, 1⟩ =
      some [0, 22/3] ∧ (0:ℚ) ≤ 0 ∧ (0:ℚ) ≤ 22/3 := by
  have hcalc :
      calculate_energy_consumption [21, 21] [10, 10] ⟨10, 2, 3, 4, 1⟩ =
        some [0, 22/3] := by
    norm_num [calculate_energy_consumption, calcSteps, simStep]
  have h := C10_energy_nonneg [21, 21] [10, 10] ⟨10, 2, 3, 4, 1⟩
    (by norm_num) (by norm_num) (by norm_num) [0, 22/3] hcalc
  exact ⟨hcalc, h 0 (by simp), h (22/3) (by simp)⟩

/-- Counterexample to C5: with the non-positive parameter
heat_loss_coefficient = -2 the call returns a full result instead of failing
with InvalidParameter, and with sequences of different lengths
(setpoints [21, 21] against outdoor_temps [10]) the call also returns a full
result instead of failing with LengthMismatch. -/
theorem C5_counterexample :
    calculate_energy_consumption [21, 21] [10, 10] ⟨10, -2, 3, 4, 1⟩ =
      some [0, 11/2] ∧
    calculate_energy_consumption [21, 21] [10] ⟨10, 2, 3, 4, 1⟩ =
      some [0, 22/3] := by
  constructor <;>
    norm_num [calculate_energy_consumption, calcSteps, simStep, abs_of_pos]

/-- C5 amended: the simulator validates nothing.  For any building
parameters, positive or not, and any nonempty setpoint sequence it returns a
full result whenever the outdoor sequence has at least length(setpoints) - 1
elements, and it fails with an IndexError partway through the loop (not with
LengthMismatch) when the outdoor sequence is shorter than that. -/
theorem C5_no_validation (setpoints outdoor_temps : List ℚ)
    (bp : BuildingParameters) (hn : 1 ≤ setpoints.length) :
    (setpoints.length ≤ outdoor_temps.length + 1 →
      ∃ energy,
        calculate_energy_consumption setpoints outdoor_temps bp = some energy ∧
        energy.length = setpoints.length) ∧
    (outdoor_temps.length + 1 < setpoints.length →
      calculate_energy_consumption setpoints outdoor_temps bp = none) := by
  cases setpoints with
  | nil => simp at hn
  | cons s0 rest =>
    constructor
    · intro h
      have hout : rest.length ≤ outdoor_temps.length := by simp at h; omega
      obtain ⟨es, heq, hlen', -⟩ := calcSteps_spec bp rest outdoor_temps s0 hout
      exact ⟨0 :: es, by simp [calculate_energy_consumption, heq], by simp [hlen']⟩
    · intro h
      have hout : outdoor_temps.length < rest.length := by simp at h; omega
      simp [calculate_energy_consumption,
        calcSteps_none bp rest outdoor_temps s0 hout]

/-- Witness for the amended C5: non-positive parameters are accepted, and a
mismatched shorter outdoor sequence of length >= n - 1 is accepted too, while
an outdoor sequence that is too short makes the call fail. -/
theorem C5_no_validation_witness :
    (([21, 21] : List ℚ).length ≤ ([10] : List ℚ).length + 1 →
      ∃ energy,
        calculate_energy_consumption [21, 21] [10] ⟨10, -2, 3, 4, 1⟩ =
          some energy ∧ energy.length = 2) ∧
    (([10] : List ℚ).length + 1 < ([21, 21, 21] : List ℚ).length →
      calculate_energy_consumption [21, 21, 21] [10] ⟨10, -2, 3, 4, 1⟩ = none) :=
  ⟨fun h => (C5_no_validation [21, 21] [10] ⟨10, -2, 3, 4, 1⟩ (by norm_num)).1 h,
   fun h => (C5_no_validation [21, 21, 21] [10] ⟨10, -2, 3, 4, 1⟩ (by norm_num)).2 h⟩

/-- Counterexample to C6: on two empty input sequences the simulator does not
return an empty energy sequence; reading setpoints[0] raises IndexError. -/
theorem C6_counterexample :
    ¬ (calculate_energy_consumption [] [] ⟨10, 2, 3, 4, 1⟩ = some []) := by
  simp [calculate_energy_consumption]

/-- C6 amended: when both input sequences have length 0, reading setpoints[0]
while initialising the indoor temperature array raises IndexError, so the
call fails instead of returning an empty sequence. -/
theorem C6_empty_input_raises (bp : BuildingParameters) :
    calculate_energy_consumption [] [] bp = none := rfl

/-- Per-step energy column computed by simulate_control (lines 305-311 of
Aida2.py) for a model setpoint column: abs(setpoint - outdoor_temp) * 0.1. -/
def model_energy_series (setpoints outdoor : List ℚ) : List ℚ :=
  List.zipWith (fun s o => |s - o| * (1/10)) setpoints outdoor

/-- Baseline energy column of simulate_control (lines 310-311):
abs(22 - outdoor_temp) * 0.1, a constant setpoint of 22 degrees. -/
def baseline_energy_series (outdoor : List ℚ) : List ℚ :=
  outdoor.map (fun o => |22 - o| * (1/10))

/-- Totals computed by plot_results (lines 349-352): the sums of the three
energy columns, in the order mlp, lstm, baseline. -/
def plot_results_totals (mlpE lstmE baseE : List ℚ) : ℚ × ℚ × ℚ :=
  (mlpE.sum, lstmE.sum, baseE.sum)

/-- Savings percentage printed by plot_results (lines 355-356). -/
def savings_pct (model_total baseline_total : ℚ) : ℚ :=
  (1 - model_total / baseline_total) * 100

/-- Counterexample to C3: on the traces setpoints [21, 21],
outdoor_temps [10, 10] with the building parameters of the spec scenario,
the per-step energy column simulate_control computes is [11/10, 11/10],
while the thermal energy simulator returns [0, 22/3]; the comparison
therefore does not obtain its energies by invoking the simulator. -/
theorem C3_counterexample :
    model_energy_series [21, 21] [10, 10] = [11/10, 11/10] ∧
    calculate_energy_consumption [21, 21] [10, 10] ⟨10, 2, 3, 4, 1⟩ =
      some [0, 22/3] ∧
    ([11/10, 11/10] : List ℚ) ≠ [0, 22/3] := by
  refine ⟨?_, ?_, by norm_num⟩
  · norm_num [model_energy_series, abs_of_pos]
  · norm_num [calculate_energy_consumption, calcSteps, simStep]

/-- C3 amended: the comparison computes each per-step model energy as
abs(setpoint - outdoor_temp) * 0.1 and the baseline as
abs(22 - outdoor_temp) * 0.1 — the same formula on a constant-22 sequence —
without invoking the thermal simulator, and plot_results reports the sums
together with savings_pct = (1 - model_total / baseline_total) * 100. -/
theorem C3_simplified_energy_model (mlp_sp lstm_sp outdoor : List ℚ) :
    baseline_energy_series outdoor =
      model_energy_series (List.replicate outdoor.length 22) outdoor ∧
    plot_results_totals (model_energy_series mlp_sp outdoor)
        (model_energy_series lstm_sp outdoor) (baseline_energy_series outdoor) =
      ((model_energy_series mlp_sp outdoor).sum,
       (model_energy_series lstm_sp outdoor).sum,
       (baseline_energy_series outdoor).sum) ∧
    ∀ mt bt : ℚ, savings_pct mt bt = (1 - mt / bt) * 100 := by
  refine ⟨?_, rfl, fun mt bt => rfl⟩
  induction outdoor with
  | nil => rfl
  | cons o os ih =>
    simpa [baseline_energy_series, model_energy_series,
      List.replicate_succ] using ih

/-- Pandas column assignment of the MLP predictions (line 294 of Aida2.py):
the values must already have the length of the simulation window; a
mismatch raises ValueError, no padding is applied. -/
def mlp_setpoint_column (simLen : ℕ) (preds : List ℚ) : Option (List ℚ) :=
  if preds.length = simLen then some preds else none

/-- Length adjustment of the LSTM predictions (lines 296-303 of Aida2.py):
shorter sequences are left-padded with the first prediction (reading it from
an empty sequence raises IndexError), longer ones are truncated. -/
def lstm_setpoint_column (simLen : ℕ) (preds : List ℚ) : Option (List ℚ) :=
  if preds.length < simLen then
    match preds with
    | [] => none
    | p :: _ => some (List.replicate (simLen - preds.length) p ++ preds)
  else some (preds.take simLen)

/-- Counterexample to C4: for a window of length 2 and the shorter prediction
sequence [5], the LSTM column is left-padded to [5, 5], but the MLP column is
not padded at all — the assignment fails — so the padding policy is not
applied consistently to every model. -/
theorem C4_counterexample :
    lstm_setpoint_column 2 [5] = some [5, 5] ∧
    mlp_setpoint_column 2 [5] = none := by
  constructor <;> rfl

/-- C4 amended: only the LSTM prediction sequence is length-adjusted — when
shorter than the window it is left-padded by repeating its first value until
the lengths match — while the MLP sequence is used as-is, and any MLP length
mismatch is an error rather than being padded. -/
theorem C4_lstm_only_padding (simLen : ℕ) (p : ℚ) (rest : List ℚ)
    (hshort : (p :: rest).length < simLen) :
    lstm_setpoint_column simLen (p :: rest) =
      some (List.replicate (simLen - (p :: rest).length) p ++ (p :: rest)) ∧
    (List.replicate (simLen - (p :: rest).length) p ++ (p :: rest)).length =
      simLen ∧
    mlp_setpoint_column simLen (p :: rest) = none := by
  refine ⟨?_, ?_, ?_⟩
  · simp only [lstm_setpoint_column, if_pos hshort]
  · simp only [List.length_append, List.length_replicate]
    omega
  · simp only [mlp_setpoint_column, if_neg (Nat.ne_of_lt hshort)]

/-- Witness for the amended C4 on a window of length 3 and predictions [5]. -/
theorem C4_lstm_only_padding_witness :
    lstm_setpoint_column 3 [5] = some [5, 5, 5] ∧
    ([5, 5, (5:ℚ)] : List ℚ).length = 3 ∧
    mlp_setpoint_column 3 [5] = none := by
  have h := C4_lstm_only_padding 3 5 [] (by norm_num)
  simpa using h

/-- Occupancy of one synthetic sample (lines 185-196 of Aida2.py), with the
uniform draw np.random.random() passed in as r, a value in [0, 1).
day_of_week follows pandas: Monday is 0, weekdays are the values below 5. -/
def occupancy_sample (day_of_week hour : ℕ) (r : ℚ) : ℚ :=
  if day_of_week < 5 then
    if 8 ≤ hour ∧ hour < 18 then 7/10 + 3/10 * r
    else if (7 ≤ hour ∧ hour < 8) ∨ (18 ≤ hour ∧ hour < 19) then 3/10 + 3/10 * r
    else 1/10 * r
  else 2/10 * r

/-- C8: every occupancy value falls in the range fixed by its calendar
position — [0.7, 1) in weekday working hours, [0.3, 0.6) in weekday shoulder
hours, [0, 0.1) in other weekday hours and [0, 0.2) on weekends — and hence
always lies in [0, 1]. -/
theorem C8_occupancy_ranges (d h : ℕ) (r : ℚ) (hr0 : 0 ≤ r) (hr1 : r < 1) :
    (d < 5 → (8 ≤ h ∧ h < 18) →
      7/10 ≤ occupancy_sample d h r ∧ occupancy_sample d h r < 1) ∧
    (d < 5 → ((7 ≤ h ∧ h < 8) ∨ (18 ≤ h ∧ h < 19)) →
      3/10 ≤ occupancy_sample d h r ∧ occupancy_sample d h r < 6/10) ∧
    (d < 5 → ¬(8 ≤ h ∧ h < 18) → ¬((7 ≤ h ∧ h < 8) ∨ (18 ≤ h ∧ h < 19)) →
      0 ≤ occupancy_sample d h r ∧ occupancy_sample d h r < 1/10) ∧
    (¬(d < 5) →
      0 ≤ occupancy_sample d h r ∧ occupancy_sample d h r < 2/10) ∧
    (0 ≤ occupancy_sample d h r ∧ occupancy_sample d h r ≤ 1) := by
  have hwork : ((7 ≤ h ∧ h < 8) ∨ (18 ≤ h ∧ h < 19)) → ¬(8 ≤ h ∧ h < 18) := by
    omega
  refine ⟨?_, ?_, ?_, ?_, ?_⟩
  · intro hd hw
    rw [occupancy_sample, if_pos hd, if_pos hw]
    constructor <;> nlinarith
  · intro hd hs
    rw [occupancy_sample, if_pos hd, if_neg (hwork hs), if_pos hs]
    constructor <;> nlinarith
  · intro hd hw hs
    rw [occupancy_sample, if_pos hd, if_neg hw, if_neg hs]
    constructor <;> nlinarith
  · intro hd
    rw [occupancy_sample, if_neg hd]
    constructor <;> nlinarith
  · rw [occupancy_sample]
    split_ifs <;> constructor <;> nlinarith

/-- Witness for C8 at a weekday working hour with r = 1/2. -/
theorem C8_occupancy_ranges_witness :
    7/10 ≤ occupancy_sample 0 9 (1/2) ∧ occupancy_sample 0 9 (1/2) < 1 :=
  (C8_occupancy_ranges 0 9 (1/2) (by norm_num) (by norm_num)).1
    (by norm_num) (by norm_num)

end HVAC
